import Mathlib

/-
Verification of the two mock LLM-serving HTTP servers
(demo_10_1_OllamaCompatibleServer.py and demo_10_2_OpenAICompatibleServer.py).

Python strings are embedded as lists of characters (PyStr); Python's
str.split(), str.split('。'), str.strip() truthiness, slicing s[:n] and
substring containment are embedded below.  JSON payloads built by the
handlers are embedded as values of the inductive type Json, and the
serialization performed by json.dumps is embedded by dumps (string
escaping is modelled for the quote, backslash and ASCII control
characters; Python's additional ensure_ascii \uXXXX escaping of
non-ASCII characters is not modelled since no claim depends on the
byte-level escape of such characters, only on framing).
-/

/-- Python strings, embedded as lists of Unicode code points. -/
abbrev PyStr := List Char

/-- Convenience conversion from a Lean string literal. -/
def pystr (s : String) : PyStr := s.toList

/-- Characters Python's str.split() and str.strip() treat as whitespace
(the ASCII whitespace characters; exotic Unicode whitespace is not used
by this repository). -/
def pyIsSpace (c : Char) : Bool :=
  c == ' ' || c == '\t' || c == '\n' || c == '\r' || c == '\x0b' || c == '\x0c'

/-- Split a list at every character satisfying p, keeping empty pieces
(the shape shared by Python's str.split(sep) for a one-character sep). -/
def splitPred (p : Char → Bool) : PyStr → List PyStr
  | [] => [[]]
  | c :: cs =>
    if p c then [] :: splitPred p cs
    else (splitPred p cs).modifyHead (fun w => c :: w)

/-- Python str.split() with no argument: split on whitespace runs and
discard empty pieces. -/
def pySplit (s : PyStr) : List PyStr :=
  (splitPred pyIsSpace s).filter (fun w => w ≠ [])

/-- Python str.split(sep) for a one-character separator: split at every
occurrence, keeping empty pieces. -/
def pySplitOn (sep : Char) (s : PyStr) : List PyStr :=
  splitPred (fun c => c == sep) s

/-- Truthiness of Python's s.strip(): true iff some character of s is
not whitespace. -/
def pyStripNonEmpty (s : PyStr) : Bool :=
  s.any (fun c => !pyIsSpace c)

/-- Python slicing s[:n]. -/
def pyTake (n : Nat) (s : PyStr) : PyStr := s.take n

/-- Concatenation of a list of strings. -/
def concatAll (xs : List PyStr) : PyStr := xs.flatten

/-- Whether sub is a prefix of hay (Bool-valued, executable). -/
def startsWith : PyStr → PyStr → Bool
  | _, [] => true
  | [], _ :: _ => false
  | h :: hs, n :: ns => h == n && startsWith hs ns

/-- Python's substring containment test, sub in hay. -/
def pyContains (hay sub : PyStr) : Bool :=
  match hay with
  | [] => sub.isEmpty
  | _ :: t => startsWith hay sub || pyContains t sub

/-- JSON values, as built by the Python handlers (dicts keep insertion
order, so objects are association lists). -/
inductive Json where
  | null
  | bool (b : Bool)
  | num (n : Int)
  | str (s : PyStr)
  | arr (elems : List Json)
  | obj (fields : List (PyStr × Json))

/-- Field lookup on a JSON object, none on any other JSON value. -/
def Json.getField (j : Json) (k : String) : Option Json :=
  match j with
  | .obj fs => fs.lookup k.toList
  | _ => none

/-- Project a numeric field of a JSON object. -/
def numField (j : Json) (k : String) : Option Int :=
  match j.getField k with
  | some (.num n) => some n
  | _ => none

/-- Project a string field of a JSON object. -/
def strField (j : Json) (k : String) : Option PyStr :=
  match j.getField k with
  | some (.str s) => some s
  | _ => none

/-- Whether a JSON object carries the given key at all. -/
def hasField (j : Json) (k : String) : Bool :=
  (j.getField k).isSome

/-- Escape of one character inside a JSON string literal, as performed
by json.dumps (quote, backslash and the ASCII control characters used
here; see the header comment for the scope of the model). -/
def escChar (c : Char) : PyStr :=
  if c == '\"' then ['\\', '\"']
  else if c == '\\' then ['\\', '\\']
  else if c == '\n' then ['\\', 'n']
  else if c == '\t' then ['\\', 't']
  else if c == '\r' then ['\\', 'r']
  else [c]

/-- Escape of a whole string inside a JSON string literal. -/
def escape (s : PyStr) : PyStr := (s.map escChar).flatten

mutual

/-- json.dumps with its default separators (", " between items and
": " after keys). -/
def dumps : Json → PyStr
  | .null => pystr "null"
  | .bool b => if b then pystr "true" else pystr "false"
  | .num n => (toString n).toList
  | .str s => '\"' :: escape s ++ ['\"']
  | .arr xs => '[' :: dumpsElems xs ++ [']']
  | .obj fs => '\x7b' :: dumpsFields fs ++ ['\x7d']

/-- Serialization of the elements of a JSON array. -/
def dumpsElems : List Json → PyStr
  | [] => []
  | [j] => dumps j
  | j :: js => dumps j ++ [',', ' '] ++ dumpsElems js

/-- Serialization of the fields of a JSON object. -/
def dumpsFields : List (PyStr × Json) → PyStr
  | [] => []
  | [(k, v)] => '\"' :: escape k ++ ['\"', ':', ' '] ++ dumps v
  | (k, v) :: fs =>
    '\"' :: escape k ++ ['\"', ':', ' '] ++ dumps v ++ [',', ' '] ++ dumpsFields fs

end

/-- HTTP response carrying a JSON body (web.json_response). -/
structure Response where
  status : Nat
  body : Json

/-- Result of a handler: either a single JSON response or a streamed
sequence of byte chunks, one list entry per response.write call. -/
inductive HandlerResult where
  | jsonRes (r : Response)
  | streamRes (writes : List PyStr)

/-- Body of a JSON handler result, none for a streamed result. -/
def resultBody : HandlerResult → Option Json
  | .jsonRes r => some r.body
  | .streamRes _ => none

/-- Status of a JSON handler result, none for a streamed result. -/
def resultStatus : HandlerResult → Option Nat
  | .jsonRes r => some r.status
  | .streamRes _ => none

/- ===================================================================
   demo_10_1_OllamaCompatibleServer.py
   =================================================================== -/

/-- Parsed payload of a /api/generate request: model, prompt and stream
fields with their data.get defaults already applied. -/
structure GenReq where
  model : PyStr
  prompt : PyStr
  stream : Bool

/-- A chat message, a dict with the role and content keys the handlers
access. -/
structure Msg where
  role : PyStr
  content : PyStr

/-- Parsed payload of a chat-style request (legacy /api/chat and OpenAI
/v1/chat/completions). -/
structure ChatReq where
  model : PyStr
  messages : List Msg
  stream : Bool

/-- handle_generate, non-streaming reply text:
f-string at line 131 of demo_10_1. -/
def genReply (prompt : PyStr) : PyStr :=
  pystr "基于你的提示 '" ++ pyTake 50 prompt ++ pystr "...' 生成的文本。这是一个模拟响应。"

/-- handle_generate, streaming: one frame per word of prompt.split(),
carrying the word plus a trailing space and done=false (lines 97-105).
The per-frame datetime.now() timestamp is modelled by one createdAt
parameter. -/
def genDeltaFrame (model createdAt : PyStr) (word : PyStr) : Json :=
  .obj [(pystr "model", .str model),
        (pystr "created_at", .str createdAt),
        (pystr "response", .str (word ++ [' '])),
        (pystr "done", .bool false)]

/-- handle_generate, streaming terminal frame (lines 109-123). -/
def genFinalFrame (model createdAt prompt : PyStr) : Json :=
  .obj [(pystr "model", .str model),
        (pystr "created_at", .str createdAt),
        (pystr "response", .str []),
        (pystr "done", .bool true),
        (pystr "context", .arr [.num 1, .num 2, .num 3]),
        (pystr "total_duration", .num 5000000000),
        (pystr "load_duration", .num 1000000000),
        (pystr "prompt_eval_count", .num ((pySplit prompt).length : Int)),
        (pystr "prompt_eval_duration", .num 1000000000),
        (pystr "eval_count", .num ((pySplit prompt).length : Int)),
        (pystr "eval_duration", .num 4000000000)]

/-- The ordered frames of a streaming /api/generate response. -/
def genStreamFrames (model createdAt prompt : PyStr) : List Json :=
  (pySplit prompt).map (genDeltaFrame model createdAt)
    ++ [genFinalFrame model createdAt prompt]

/-- The byte chunks written by a streaming /api/generate response: each
frame is json.dumps output plus one newline (lines 98-104, 109-123). -/
def genStreamWrites (model createdAt prompt : PyStr) : List PyStr :=
  (genStreamFrames model createdAt prompt).map (fun j => dumps j ++ ['\n'])

/-- handle_generate, non-streaming response body (lines 128-140);
eval_count is the literal 100. -/
def genNonStreamBody (model createdAt prompt : PyStr) : Json :=
  .obj [(pystr "model", .str model),
        (pystr "created_at", .str createdAt),
        (pystr "response", .str (genReply prompt)),
        (pystr "done", .bool true),
        (pystr "context", .arr [.num 1, .num 2, .num 3]),
        (pystr "total_duration", .num 5000000000),
        (pystr "load_duration", .num 1000000000),
        (pystr "prompt_eval_count", .num ((pySplit prompt).length : Int)),
        (pystr "prompt_eval_duration", .num 1000000000),
        (pystr "eval_count", .num 100),
        (pystr "eval_duration", .num 4000000000)]

/-- handle_generate: the body parse either fails (await request.json()
raising, caught at line 142 and answered with status 500 and the
legacy error shape) or yields a GenReq. -/
def handle_generate (createdAt : PyStr) (req : Except PyStr GenReq) : HandlerResult :=
  match req with
  | .error e => .jsonRes ⟨500, .obj [(pystr "error", .str e)]⟩
  | .ok r =>
    if r.stream then
      .streamRes (genStreamWrites r.model createdAt r.prompt)
    else
      .jsonRes ⟨200, genNonStreamBody r.model createdAt r.prompt⟩

/-- Content of the last message whose role is "user", empty string if
none: lines 154-156 (filter comprehension then [-1] indexing). -/
def lastUserMessage (messages : List Msg) : PyStr :=
  let user_messages := messages.filter (fun m => m.role == pystr "user")
  match user_messages.getLast? with
  | some m => m.content
  | none => []

/-- handle_chat streaming reply text (line 172). -/
def chatReplyText (last_message : PyStr) : PyStr :=
  pystr "这是对你消息的回复：'" ++ pyTake 50 last_message ++ pystr "...'。这是一个模拟的聊天响应。"

/-- The sentence fragments a chat-style handler emits: split the reply
on the '。' terminator and keep the fragments whose strip() is truthy
(lines 173-176). -/
def chatStreamSentences (reply : PyStr) : List PyStr :=
  (pySplitOn '。' reply).filter pyStripNonEmpty

/-- handle_chat streaming delta frame (lines 177-186): the fragment
plus the restored '。' terminator, done=false. -/
def chatDeltaFrame (model createdAt : PyStr) (sentence : PyStr) : Json :=
  .obj [(pystr "model", .str model),
        (pystr "created_at", .str createdAt),
        (pystr "message", .obj [(pystr "role", .str (pystr "assistant")),
                                (pystr "content", .str (sentence ++ ['。']))]),
        (pystr "done", .bool false)]

/-- handle_chat streaming terminal frame (lines 191-206). -/
def chatFinalFrame (model createdAt last_message : PyStr) : Json :=
  .obj [(pystr "model", .str model),
        (pystr "created_at", .str createdAt),
        (pystr "message", .obj [(pystr "role", .str (pystr "assistant")),
                                (pystr "content", .str [])]),
        (pystr "done", .bool true),
        (pystr "total_duration", .num 6000000000),
        (pystr "load_duration", .num 1000000000),
        (pystr "prompt_eval_count", .num ((pySplit last_message).length : Int)),
        (pystr "prompt_eval_duration", .num 2000000000),
        (pystr "eval_count", .num ((pySplit (chatReplyText last_message)).length : Int)),
        (pystr "eval_duration", .num 3000000000)]

/-- The ordered frames of a streaming /api/chat response. -/
def chatStreamFrames (model createdAt last_message : PyStr) : List Json :=
  (chatStreamSentences (chatReplyText last_message)).map (chatDeltaFrame model createdAt)
    ++ [chatFinalFrame model createdAt last_message]

/-- The byte chunks written by a streaming /api/chat response. -/
def chatStreamWrites (model createdAt last_message : PyStr) : List PyStr :=
  (chatStreamFrames model createdAt last_message).map (fun j => dumps j ++ ['\n'])

/-- handle_chat, non-streaming response body (lines 212-226);
eval_count is the literal 100. -/
def chatNonStreamBody (model createdAt last_message : PyStr) : Json :=
  .obj [(pystr "model", .str model),
        (pystr "created_at", .str createdAt),
        (pystr "message", .obj [(pystr "role", .str (pystr "assistant")),
                                (pystr "content", .str (chatReplyText last_message))]),
        (pystr "done", .bool true),
        (pystr "total_duration", .num 6000000000),
        (pystr "load_duration", .num 1000000000),
        (pystr "prompt_eval_count", .num ((pySplit last_message).length : Int)),
        (pystr "prompt_eval_duration", .num 2000000000),
        (pystr "eval_count", .num 100),
        (pystr "eval_duration", .num 3000000000)]

/-- handle_chat (lines 145-229). -/
def handle_chat (createdAt : PyStr) (req : Except PyStr ChatReq) : HandlerResult :=
  match req with
  | .error e => .jsonRes ⟨500, .obj [(pystr "error", .str e)]⟩
  | .ok r =>
    let last_message := lastUserMessage r.messages
    if r.stream then
      .streamRes (chatStreamWrites r.model createdAt last_message)
    else
      .jsonRes ⟨200, chatNonStreamBody r.model createdAt last_message⟩

/-- The input field of a /api/embed request: a string or a list of
strings (line 243). -/
inductive EmbedInput where
  | str (s : PyStr)
  | list (xs : List PyStr)

/-- Parsed payload of a /api/embed request. -/
structure EmbedReq where
  model : PyStr
  input : EmbedInput

/-- CPython's hash() builtin as called at line 247: defined on str
(the hash value itself is irrelevant to every claim and is modelled as
0), and raising TypeError("unhashable type: 'list'") on a list. -/
def pyHash : EmbedInput → Except PyStr Int
  | .str _ => .ok 0
  | .list _ => .error (pystr "unhashable type: 'list'")

/-- The mock 4096-dimensional gaussian embedding vector of line 250.
Its numeric contents come from the seeded random generator and are not
modelled; no claim depends on them. -/
def mockEmbedding : Json := .arr []

/-- Body of handle_embed after a successful parse (lines 242-260): the
hash call at line 247 runs before the isinstance branches of lines
254 and 257, so a list input raises there. -/
def handle_embed_body (r : EmbedReq) : Except PyStr Response := do
  let _ ← pyHash r.input
  .ok ⟨200,
    .obj [(pystr "model", .str r.model),
          (pystr "embeddings", .arr (match r.input with
            | .str _ => [mockEmbedding]
            | .list xs => List.replicate xs.length mockEmbedding)),
          (pystr "total_duration", .num 100000000),
          (pystr "load_duration", .num 50000000),
          (pystr "prompt_eval_count", .num (match r.input with
            | .str s => ((pySplit s).length : Int)
            | .list xs => ((xs.map (fun t => (pySplit t).length)).sum : Int))),
          (pystr "prompt_eval_duration", .num 50000000)]⟩

/-- handle_embed (lines 238-262): any exception is answered with
status 500 and the legacy error shape. -/
def handle_embed (req : Except PyStr EmbedReq) : Response :=
  match req with
  | .error e => ⟨500, .obj [(pystr "error", .str e)]⟩
  | .ok r =>
    match handle_embed_body r with
    | .ok res => res
    | .error e => ⟨500, .obj [(pystr "error", .str e)]⟩

/- ===================================================================
   demo_10_2_OpenAICompatibleServer.py
   =================================================================== -/

/-- handle_chat_completions reply text (lines 166 and 221). -/
def openaiChatReply (last_message : PyStr) : PyStr :=
  pystr "这是对你消息的回复：'" ++ pyTake 50 last_message ++ pystr "...'。这是一个模拟的OpenAI兼容响应。"

/-- handle_completions reply text (line 311). -/
def completionsReply (prompt : PyStr) : PyStr :=
  pystr "基于你的提示 '" ++ pyTake 50 prompt ++ pystr "...' 生成的文本。这是一个模拟OpenAI响应。"

/-- handle_chat_completions streaming chunk for one sentence fragment
(lines 172-187): finish_reason is JSON null. -/
def chatChunk (rid : PyStr) (created : Int) (model : PyStr) (sentence : PyStr) : Json :=
  .obj [(pystr "id", .str rid),
        (pystr "object", .str (pystr "chat.completion.chunk")),
        (pystr "created", .num created),
        (pystr "model", .str model),
        (pystr "choices", .arr [
          .obj [(pystr "index", .num 0),
                (pystr "delta", .obj [(pystr "role", .str (pystr "assistant")),
                                      (pystr "content", .str (sentence ++ ['。']))]),
                (pystr "finish_reason", .null)]])]

/-- handle_chat_completions final streaming chunk (lines 192-204):
empty delta, finish_reason "stop". -/
def chatFinalChunk (rid : PyStr) (created : Int) (model : PyStr) : Json :=
  .obj [(pystr "id", .str rid),
        (pystr "object", .str (pystr "chat.completion.chunk")),
        (pystr "created", .num created),
        (pystr "model", .str model),
        (pystr "choices", .arr [
          .obj [(pystr "index", .num 0),
                (pystr "delta", .obj []),
                (pystr "finish_reason", .str (pystr "stop"))]])]

/-- The ordered chunk objects of a streaming /v1/chat/completions
response. -/
def chatCompletionsChunks (rid : PyStr) (created : Int) (model last_message : PyStr) : List Json :=
  (chatStreamSentences (openaiChatReply last_message)).map (chatChunk rid created model)
    ++ [chatFinalChunk rid created model]

/-- One event-stream frame: the f-string of lines 188, 205, 280, 298. -/
def dataWrap (j : Json) : PyStr :=
  pystr "data: " ++ dumps j ++ pystr "\n\n"

/-- The literal sentinel written after the final chunk
(lines 206 and 299). -/
def doneSentinel : PyStr := pystr "data: [DONE]\n\n"

/-- The byte chunks written by a streaming /v1/chat/completions
response (lines 169-207). -/
def chatCompletionsStreamWrites (rid : PyStr) (created : Int) (model last_message : PyStr) : List PyStr :=
  (chatCompletionsChunks rid created model last_message).map dataWrap ++ [doneSentinel]

/-- handle_chat_completions, non-streaming response body
(lines 211-231): completion_tokens is the literal 50. -/
def chatCompletionsNonStreamBody (rid : PyStr) (created : Int) (model last_message : PyStr) : Json :=
  .obj [(pystr "id", .str rid),
        (pystr "object", .str (pystr "chat.completion")),
        (pystr "created", .num created),
        (pystr "model", .str model),
        (pystr "choices", .arr [
          .obj [(pystr "index", .num 0),
                (pystr "message", .obj [(pystr "role", .str (pystr "assistant")),
                                        (pystr "content", .str (openaiChatReply last_message))]),
                (pystr "finish_reason", .str (pystr "stop"))]]),
        (pystr "usage", .obj [
          (pystr "prompt_tokens", .num ((pySplit last_message).length : Int)),
          (pystr "completion_tokens", .num 50),
          (pystr "total_tokens", .num (((pySplit last_message).length : Int) + 50))])]

/-- handle_chat_completions (lines 134-234): parse failure is answered
with status 500 and the OpenAI error shape. -/
def handle_chat_completions (rid : PyStr) (created : Int) (req : Except PyStr ChatReq) : HandlerResult :=
  match req with
  | .error e =>
    .jsonRes ⟨500, .obj [(pystr "error", .obj [(pystr "message", .str e),
                                               (pystr "type", .str (pystr "server_error"))])]⟩
  | .ok r =>
    let last_message := lastUserMessage r.messages
    if r.stream then
      .streamRes (chatCompletionsStreamWrites rid created r.model last_message)
    else
      .jsonRes ⟨200, chatCompletionsNonStreamBody rid created r.model last_message⟩

/-- handle_completions streaming chunk for one word of prompt.split()
(lines 264-280): the word plus a trailing space, finish_reason null. -/
def completionChunk (rid : PyStr) (created : Int) (model : PyStr) (word : PyStr) : Json :=
  .obj [(pystr "id", .str rid),
        (pystr "object", .str (pystr "text_completion")),
        (pystr "created", .num created),
        (pystr "model", .str model),
        (pystr "choices", .arr [
          .obj [(pystr "text", .str (word ++ [' '])),
                (pystr "index", .num 0),
                (pystr "logprobs", .null),
                (pystr "finish_reason", .null)]])]

/-- handle_completions final streaming chunk (lines 284-297): empty
text, finish_reason "stop". -/
def completionFinalChunk (rid : PyStr) (created : Int) (model : PyStr) : Json :=
  .obj [(pystr "id", .str rid),
        (pystr "object", .str (pystr "text_completion")),
        (pystr "created", .num created),
        (pystr "model", .str model),
        (pystr "choices", .arr [
          .obj [(pystr "text", .str []),
                (pystr "index", .num 0),
                (pystr "logprobs", .null),
                (pystr "finish_reason", .str (pystr "stop"))]])]

/-- The ordered chunk objects of a streaming /v1/completions response. -/
def completionsChunks (rid : PyStr) (created : Int) (model prompt : PyStr) : List Json :=
  (pySplit prompt).map (completionChunk rid created model)
    ++ [completionFinalChunk rid created model]

/-- The byte chunks written by a streaming /v1/completions response
(lines 263-300). -/
def completionsStreamWrites (rid : PyStr) (created : Int) (model prompt : PyStr) : List PyStr :=
  (completionsChunks rid created model prompt).map dataWrap ++ [doneSentinel]

/-- Parsed payload of a /v1/completions request. -/
structure CompReq where
  model : PyStr
  prompt : PyStr
  stream : Bool

/-- handle_completions, non-streaming response body (lines 304-322):
completion_tokens is the literal 50. -/
def completionsNonStreamBody (rid : PyStr) (created : Int) (model prompt : PyStr) : Json :=
  .obj [(pystr "id", .str rid),
        (pystr "object", .str (pystr "text_completion")),
        (pystr "created", .num created),
        (pystr "model", .str model),
        (pystr "choices", .arr [
          .obj [(pystr "text", .str (completionsReply prompt)),
                (pystr "index", .num 0),
                (pystr "logprobs", .null),
                (pystr "finish_reason", .str (pystr "stop"))]]),
        (pystr "usage", .obj [
          (pystr "prompt_tokens", .num ((pySplit prompt).length : Int)),
          (pystr "completion_tokens", .num 50),
          (pystr "total_tokens", .num (((pySplit prompt).length : Int) + 50))])]

/-- handle_completions (lines 236-325). -/
def handle_completions (rid : PyStr) (created : Int) (req : Except PyStr CompReq) : HandlerResult :=
  match req with
  | .error e =>
    .jsonRes ⟨500, .obj [(pystr "error", .obj [(pystr "message", .str e),
                                               (pystr "type", .str (pystr "server_error"))])]⟩
  | .ok r =>
    if r.stream then
      .streamRes (completionsStreamWrites rid created r.model r.prompt)
    else
      .jsonRes ⟨200, completionsNonStreamBody rid created r.model r.prompt⟩

/-- One permission entry of the static model registry (lines 26-99). -/
def modelPermission (permId : PyStr) (created : Int) : Json :=
  .obj [(pystr "id", .str permId),
        (pystr "object", .str (pystr "model_permission")),
        (pystr "created", .num created),
        (pystr "allow_create_engine", .bool false),
        (pystr "allow_sampling", .bool true),
        (pystr "allow_logprobs", .bool true),
        (pystr "allow_search_indices", .bool false),
        (pystr "allow_view", .bool true),
        (pystr "allow_fine_tuning", .bool false),
        (pystr "organization", .str (pystr "*")),
        (pystr "group", .null),
        (pystr "is_blocking", .bool false)]

/-- One entry of the static model registry. -/
def modelEntry (mid : PyStr) (created : Int) (permId : PyStr) : Json :=
  .obj [(pystr "id", .str mid),
        (pystr "object", .str (pystr "model")),
        (pystr "created", .num created),
        (pystr "owned_by", .str (pystr "openai")),
        (pystr "permission", .arr [modelPermission permId created]),
        (pystr "root", .str mid),
        (pystr "parent", .null)]

/-- The static model registry self.models of the OpenAI server
(lines 26-99). -/
def openaiModels : List (PyStr × Json) :=
  [(pystr "gpt-3.5-turbo", modelEntry (pystr "gpt-3.5-turbo") 1677610602 (pystr "modelperm-123")),
   (pystr "text-embedding-ada-002", modelEntry (pystr "text-embedding-ada-002") 1671212500 (pystr "modelperm-456")),
   (pystr "gpt-4", modelEntry (pystr "gpt-4") 1687882411 (pystr "modelperm-789"))]

/-- handle_retrieve_model (lines 376-390): membership test on the
static registry, 200 with the metadata on a hit, 404 with a structured
not-found error otherwise. -/
def handle_retrieve_model (model_id : PyStr) : Response :=
  match openaiModels.lookup model_id with
  | some meta => ⟨200, meta⟩
  | none =>
    ⟨404, .obj [(pystr "error", .obj [
        (pystr "message", .str (pystr "The model '" ++ model_id ++ pystr "' does not exist")),
        (pystr "type", .str (pystr "invalid_request_error")),
        (pystr "param", .str (pystr "model_id")),
        (pystr "code", .str (pystr "model_not_found"))])]⟩

/- ===================================================================
   Observation helpers on the wire payloads
   =================================================================== -/

/-- First element of the choices array of an OpenAI payload. -/
def choices0 (j : Json) : Option Json :=
  match j.getField "choices" with
  | some (.arr (c :: _)) => some c
  | _ => none

/-- Whether an OpenAI chunk carries finish_reason null. -/
def chunkFinishIsNull (j : Json) : Bool :=
  match (choices0 j).bind (fun c => c.getField "finish_reason") with
  | some .null => true
  | _ => false

/-- Whether an OpenAI chunk or choice carries finish_reason "stop". -/
def chunkFinishIsStop (j : Json) : Bool :=
  match (choices0 j).bind (fun c => c.getField "finish_reason") with
  | some (.str s) => s == pystr "stop"
  | _ => false

/-- The message.content string of a non-streaming OpenAI chat body. -/
def chatMsgContent (j : Json) : Option PyStr :=
  (choices0 j).bind fun c =>
    (c.getField "message").bind fun m => strField m "content"

/-- A usage sub-field of a non-streaming OpenAI body. -/
def usageNum (j : Json) (k : String) : Option Int :=
  (j.getField "usage").bind fun u => numField u k

/-- Whether a legacy line-delimited frame carries done=true. -/
def doneIsTrue (j : Json) : Bool :=
  match j.getField "done" with
  | some (.bool true) => true
  | _ => false

/-- The response texts of the non-terminal (done=false) frames of a
legacy generate stream. -/
def deltaResponseTexts (frames : List Json) : List PyStr :=
  frames.filterMap fun j =>
    match j.getField "done", j.getField "response" with
    | some (.bool false), some (.str s) => some s
    | _, _ => none

/-- The message.content texts of the non-terminal (done=false) frames
of a legacy chat stream. -/
def deltaMessageContents (frames : List Json) : List PyStr :=
  frames.filterMap fun j =>
    match j.getField "done", (j.getField "message").bind (fun m => m.getField "content") with
    | some (.bool false), some (.str s) => some s
    | _, _ => none

/-- The delta.content texts of the non-terminal (finish_reason null)
chunks of an OpenAI chat-completion stream. -/
def chunkDeltaContents (chunks : List Json) : List PyStr :=
  chunks.filterMap fun c =>
    if chunkFinishIsNull c then
      (choices0 c).bind fun ch =>
        (ch.getField "delta").bind fun d => strField d "content"
    else none

/-- The text fields of the non-terminal (finish_reason null) chunks of
an OpenAI legacy-completion stream. -/
def chunkTexts (chunks : List Json) : List PyStr :=
  chunks.filterMap fun c =>
    if chunkFinishIsNull c then
      (choices0 c).bind fun ch => strField ch "text"
    else none

/-- Whether a body's error field is a bare string (the legacy Ollama
error shape). -/
def errorFieldIsString (j : Json) : Bool :=
  match j.getField "error" with
  | some (.str _) => true
  | _ => false

/-- Whether a body's error field is a structured object (the OpenAI
error shape). -/
def errorFieldIsObject (j : Json) : Bool :=
  match j.getField "error" with
  | some (.obj _) => true
  | _ => false

/-- The message.content string of a legacy line-delimited chat body. -/
def legacyMsgContent (j : Json) : Option PyStr :=
  (j.getField "message").bind fun m => strField m "content"

/-- The refinement comparison point for source-text derivation,
following the spec's words: the source text of a message-style request
is the content of the last message whose role is user, and the empty
string when no message has role user. -/
def specSourceText (messages : List Msg) : PyStr :=
  match messages.reverse.find? (fun m => m.role == pystr "user") with
  | some m => m.content
  | none => []

/- ===================================================================
   Supporting lemmas on the string-splitting embedding
   =================================================================== -/

theorem splitPred_ne_nil (p : Char → Bool) (l : PyStr) : splitPred p l ≠ [] := by
  induction l with
  | nil => simp [splitPred]
  | cons c cs ih =>
    simp only [splitPred]
    split
    · simp
    · cases h : splitPred p cs with
      | nil => exact absurd h ih
      | cons w ws => simp [List.modifyHead]

theorem splitPred_append_sep (p : Char → Bool) (c : Char) (hc : p c = true) (l : PyStr) :
    splitPred p (l ++ [c]) = splitPred p l ++ [[]] := by
  induction l with
  | nil => simp [splitPred, hc]
  | cons d ds ih =>
    have hstep : (d :: ds) ++ [c] = d :: (ds ++ [c]) := rfl
    rw [hstep]
    simp only [splitPred]
    by_cases hd : p d
    · simp only [if_pos hd, ih, List.cons_append]
    · simp only [if_neg hd, ih]
      cases h : splitPred p ds with
      | nil => exact absurd h (splitPred_ne_nil p ds)
      | cons w ws => simp [List.modifyHead, h]

theorem flatten_map_sep (sep : Char) (l : PyStr) :
    ((splitPred (fun c => c == sep) l).map (fun q => q ++ [sep])).flatten = l ++ [sep] := by
  induction l with
  | nil => rfl
  | cons c cs ih =>
    simp only [splitPred]
    split
    · next h =>
      have hc : c = sep := by simpa using h
      simp [hc, ih]
    · next h =>
      cases hs : splitPred (fun c => c == sep) cs with
      | nil => exact absurd hs (splitPred_ne_nil _ cs)
      | cons w ws =>
        rw [hs] at ih
        simp only [List.modifyHead, List.map_cons, List.flatten_cons] at ih ⊢
        simp only [List.cons_append, List.append_assoc] at ih ⊢
        rw [ih]

/-- Core reconstruction lemma: when every fragment of the split of pre
is non-blank, the chat-style emission (filter the blanks out, restore
the terminator on each survivor) rebuilds pre ++ sep exactly. -/
theorem chat_emission_reconstructs (pre : PyStr)
    (h : ∀ q ∈ pySplitOn '。' pre, pyStripNonEmpty q = true) :
    concatAll ((chatStreamSentences (pre ++ ['。'])).map (fun s => s ++ ['。'])) = pre ++ ['。'] := by
  unfold chatStreamSentences concatAll
  unfold pySplitOn at h ⊢
  rw [splitPred_append_sep _ '。' (by decide) pre]
  rw [List.filter_append]
  have h1 : (splitPred (fun c => c == '。') pre).filter pyStripNonEmpty
      = splitPred (fun c => c == '。') pre := List.filter_eq_self.mpr h
  have h2 : ([([] : PyStr)].filter pyStripNonEmpty) = [] := by decide
  rw [h1, h2, List.append_nil]
  exact flatten_map_sep '。' pre

/-- The legacy chat reply always ends with the '。' terminator. -/
theorem chatReplyText_decomp (lm : PyStr) :
    chatReplyText lm
      = (pystr "这是对你消息的回复：'" ++ pyTake 50 lm ++ pystr "...'。这是一个模拟的聊天响应") ++ ['。'] := by
  unfold chatReplyText
  have h : pystr "...'。这是一个模拟的聊天响应。" = pystr "...'。这是一个模拟的聊天响应" ++ ['。'] := by decide
  rw [h]
  simp [List.append_assoc]

/-- The OpenAI chat reply always ends with the '。' terminator. -/
theorem openaiChatReply_decomp (lm : PyStr) :
    openaiChatReply lm
      = (pystr "这是对你消息的回复：'" ++ pyTake 50 lm ++ pystr "...'。这是一个模拟的OpenAI兼容响应") ++ ['。'] := by
  unfold openaiChatReply
  have h : pystr "...'。这是一个模拟的OpenAI兼容响应。" = pystr "...'。这是一个模拟的OpenAI兼容响应" ++ ['。'] := by decide
  rw [h]
  simp [List.append_assoc]

/-- Extracting the delta contents of a legacy chat stream recovers the
emitted sentence fragments with their restored terminators. -/
theorem deltaMessageContents_frames (model createdAt lm : PyStr) (sents : List PyStr) :
    deltaMessageContents (sents.map (chatDeltaFrame model createdAt) ++ [chatFinalFrame model createdAt lm])
      = sents.map (fun s => s ++ ['。']) := by
  induction sents with
  | nil => rfl
  | cons s t ih =>
    show (s ++ ['。']) :: deltaMessageContents (t.map (chatDeltaFrame model createdAt) ++ [chatFinalFrame model createdAt lm])
        = (s ++ ['。']) :: t.map (fun s => s ++ ['。'])
    rw [ih]

/-- Extracting the delta contents of an OpenAI chat-completion stream
recovers the emitted sentence fragments with their restored
terminators. -/
theorem chunkDeltaContents_chunks (rid : PyStr) (created : Int) (model : PyStr) (sents : List PyStr) :
    chunkDeltaContents (sents.map (chatChunk rid created model) ++ [chatFinalChunk rid created model])
      = sents.map (fun s => s ++ ['。']) := by
  induction sents with
  | nil => rfl
  | cons s t ih =>
    show (s ++ ['。']) :: chunkDeltaContents (t.map (chatChunk rid created model) ++ [chatFinalChunk rid created model])
        = (s ++ ['。']) :: t.map (fun s => s ++ ['。'])
    rw [ih]

/-- find? is the head of the filtered list. -/
theorem find?_eq_head?_filter (p : α → Bool) (l : List α) :
    l.find? p = (l.filter p).head? := by
  induction l with
  | nil => rfl
  | cons a t ih =>
    by_cases h : p a = true
    · rw [List.find?_cons_of_pos _ h, List.filter_cons_of_pos h, List.head?_cons]
    · rw [List.find?_cons_of_neg _ h, List.filter_cons_of_neg h, ih]

/-- The source-text extraction of the chat handlers (filter on role
then last element) agrees with the spec's description (last message
whose role is user). -/
theorem lastUser_eq_spec (messages : List Msg) :
    lastUserMessage messages = specSourceText messages := by
  unfold lastUserMessage specSourceText
  rw [find?_eq_head?_filter, List.filter_reverse, List.head?_reverse]

/-- When every fragment of the split of the reply body other than the
final empty one is non-blank, the chat emission rebuilds the reply. -/
theorem chat_equality_general (pre : PyStr)
    (h : ∀ q ∈ (pySplitOn '。' (pre ++ ['。'])).dropLast, pyStripNonEmpty q = true) :
    concatAll ((chatStreamSentences (pre ++ ['。'])).map (fun s => s ++ ['。'])) = pre ++ ['。'] := by
  apply chat_emission_reconstructs
  intro q hq
  apply h
  unfold pySplitOn
  rw [splitPred_append_sep (fun c => c == '。') '。' (by decide), List.dropLast_concat]
  exact hq

/- ===================================================================
   Claims
   =================================================================== -/

/-- C1 counterexample: claim C1 asserts content-equality between the
streaming and non-streaming paths for all four handlers, but for the
legacy generate handler at prompt "hi" the streaming path emits the
echo "hi " while the non-streaming path returns the fixed template
reply, so the concatenation of the Delta texts differs from the
non-streaming response text. -/
theorem c1_generate_counterexample :
    some (concatAll (deltaResponseTexts (genStreamFrames (pystr "llama2") (pystr "t0") (pystr "hi"))))
      ≠ strField (genNonStreamBody (pystr "llama2") (pystr "t0") (pystr "hi")) "response" := by
  decide

/-- C1 (amended): content-equality between modes holds for the two
chat handlers (legacy chat and OpenAI chat completions) whenever no
non-final fragment of the '。'-split of the derived reply is
whitespace-only: the non-streaming message content equals the
concatenation of the streamed delta contents.  It fails for the two
word-echo handlers (legacy generate and OpenAI completions), whose
streamed text is the prompt's words while their non-streaming reply is
a fixed template. -/
theorem c1_chat_content_equality (model createdAt rid : PyStr) (created : Int) (lm : PyStr)
    (h1 : ∀ q ∈ (pySplitOn '。' (chatReplyText lm)).dropLast, pyStripNonEmpty q = true)
    (h2 : ∀ q ∈ (pySplitOn '。' (openaiChatReply lm)).dropLast, pyStripNonEmpty q = true) :
    legacyMsgContent (chatNonStreamBody model createdAt lm)
        = some (concatAll (deltaMessageContents (chatStreamFrames model createdAt lm)))
  ∧ chatMsgContent (chatCompletionsNonStreamBody rid created model lm)
        = some (concatAll (chunkDeltaContents (chatCompletionsChunks rid created model lm))) := by
  have hd1 := chatReplyText_decomp lm
  have hd2 := openaiChatReply_decomp lm
  constructor
  · have e1 := chat_equality_general _ (hd1 ▸ h1)
    rw [← hd1] at e1
    show some (chatReplyText lm)
        = some (concatAll (deltaMessageContents (chatStreamFrames model createdAt lm)))
    unfold chatStreamFrames
    rw [deltaMessageContents_frames, e1]
  · have e2 := chat_equality_general _ (hd2 ▸ h2)
    rw [← hd2] at e2
    show some (openaiChatReply lm)
        = some (concatAll (chunkDeltaContents (chatCompletionsChunks rid created model lm)))
    unfold chatCompletionsChunks
    rw [chunkDeltaContents_chunks, e2]

/-- C1 witness: the amended equality at the concrete user message
"你好", with both non-blankness hypotheses discharged by computation. -/
theorem c1_chat_content_equality_witness :
    (∀ q ∈ (pySplitOn '。' (chatReplyText (pystr "你好"))).dropLast, pyStripNonEmpty q = true)
  ∧ legacyMsgContent (chatNonStreamBody (pystr "llama2") (pystr "t0") (pystr "你好"))
      = some (concatAll (deltaMessageContents (chatStreamFrames (pystr "llama2") (pystr "t0") (pystr "你好")))) :=
  ⟨by decide,
   (c1_chat_content_equality (pystr "llama2") (pystr "t0") (pystr "rid") 0 (pystr "你好")
      (by decide) (by decide)).1⟩

/-- C2: on a request body that fails to parse, every legacy handler
answers status 500 with the flat error shape whose error field is a
bare string, and every OpenAI handler answers status 500 with the
structured error shape whose error field is an object carrying message
and type; the two shapes are never conflated.  (Status 500 realises the
claim's "400 for user error or 500 for unexpected internal failure"
disjunction: the code routes every parse failure through the generic
exception arm.) -/
theorem c2_error_shapes (createdAt rid : PyStr) (created : Int) (e : PyStr) :
    handle_generate createdAt (.error e) = .jsonRes ⟨500, .obj [(pystr "error", .str e)]⟩
  ∧ handle_chat createdAt (.error e) = .jsonRes ⟨500, .obj [(pystr "error", .str e)]⟩
  ∧ handle_embed (.error e) = ⟨500, .obj [(pystr "error", .str e)]⟩
  ∧ handle_chat_completions rid created (.error e)
      = .jsonRes ⟨500, .obj [(pystr "error", .obj [(pystr "message", .str e),
                                                   (pystr "type", .str (pystr "server_error"))])]⟩
  ∧ handle_completions rid created (.error e)
      = .jsonRes ⟨500, .obj [(pystr "error", .obj [(pystr "message", .str e),
                                                   (pystr "type", .str (pystr "server_error"))])]⟩
  ∧ errorFieldIsString (Json.obj [(pystr "error", .str e)]) = true
  ∧ errorFieldIsObject (Json.obj [(pystr "error", .str e)]) = false
  ∧ errorFieldIsObject (Json.obj [(pystr "error", .obj [(pystr "message", .str e),
        (pystr "type", .str (pystr "server_error"))])]) = true
  ∧ errorFieldIsString (Json.obj [(pystr "error", .obj [(pystr "message", .str e),
        (pystr "type", .str (pystr "server_error"))])]) = false :=
  ⟨rfl, rfl, rfl, rfl, rfl, rfl, rfl, rfl, rfl⟩

/-- C3 counterexample: claim C3 asserts that the completion token
count of the terminal payload equals the whitespace-token count of the
synthesized reply in both modes, but the non-streaming generate
response hardcodes eval_count to 100 while its reply text splits into
3 tokens at prompt "hello". -/
theorem c3_counterexample :
    numField (genNonStreamBody (pystr "llama2") (pystr "t0") (pystr "hello")) "eval_count"
      ≠ some ((pySplit (genReply (pystr "hello"))).length : Int) := by
  decide

/-- C3 (amended): the prompt token count is the whitespace-token count
of the source text wherever a usage payload exists (all four non-
streaming bodies and both legacy terminal frames); the completion
token count equals the whitespace-token count of the synthesized reply
only on the legacy streaming paths (for generate it equals the number
of prompt words, which is the number of Delta frames); the
non-streaming paths hardcode it (100 on the legacy surface, 50 on the
OpenAI surface), and the OpenAI streaming terminal chunks carry no
usage payload at all. -/
theorem c3_token_counts (model createdAt rid : PyStr) (created : Int) (prompt lm : PyStr) :
    numField (genFinalFrame model createdAt prompt) "prompt_eval_count"
        = some ((pySplit prompt).length : Int)
  ∧ numField (genFinalFrame model createdAt prompt) "eval_count"
        = some ((pySplit prompt).length : Int)
  ∧ (genStreamFrames model createdAt prompt).length = (pySplit prompt).length + 1
  ∧ numField (genNonStreamBody model createdAt prompt) "prompt_eval_count"
        = some ((pySplit prompt).length : Int)
  ∧ numField (genNonStreamBody model createdAt prompt) "eval_count" = some 100
  ∧ numField (chatFinalFrame model createdAt lm) "prompt_eval_count"
        = some ((pySplit lm).length : Int)
  ∧ numField (chatFinalFrame model createdAt lm) "eval_count"
        = some ((pySplit (chatReplyText lm)).length : Int)
  ∧ numField (chatNonStreamBody model createdAt lm) "prompt_eval_count"
        = some ((pySplit lm).length : Int)
  ∧ numField (chatNonStreamBody model createdAt lm) "eval_count" = some 100
  ∧ usageNum (chatCompletionsNonStreamBody rid created model lm) "prompt_tokens"
        = some ((pySplit lm).length : Int)
  ∧ usageNum (chatCompletionsNonStreamBody rid created model lm) "completion_tokens" = some 50
  ∧ usageNum (chatCompletionsNonStreamBody rid created model lm) "total_tokens"
        = some (((pySplit lm).length : Int) + 50)
  ∧ usageNum (completionsNonStreamBody rid created model prompt) "prompt_tokens"
        = some ((pySplit prompt).length : Int)
  ∧ usageNum (completionsNonStreamBody rid created model prompt) "completion_tokens" = some 50
  ∧ hasField (chatFinalChunk rid created model) "usage" = false
  ∧ hasField (completionFinalChunk rid created model) "usage" = false := by
  refine ⟨rfl, rfl, ?_, rfl, rfl, rfl, rfl, rfl, rfl, rfl, rfl, rfl, rfl, rfl, rfl, rfl⟩
  simp [genStreamFrames]

/-- C4: on both OpenAI streaming surfaces every write before the last
is a chunk framed as the data-prefixed serialization of one JSON value
followed by a blank line, every non-terminal chunk carries
finish_reason null, the final chunk carries finish_reason "stop" and
is the last chunk, and the very last write is the literal sentinel
line data: [DONE] followed by a blank line. -/
theorem c4_event_stream_framing (rid : PyStr) (created : Int) (model lm prompt : PyStr) :
    (chatCompletionsStreamWrites rid created model lm).dropLast
        = (chatCompletionsChunks rid created model lm).map dataWrap
  ∧ ((chatCompletionsChunks rid created model lm).dropLast).all chunkFinishIsNull = true
  ∧ chunkFinishIsStop (chatFinalChunk rid created model) = true
  ∧ (chatCompletionsChunks rid created model lm).getLast? = some (chatFinalChunk rid created model)
  ∧ (chatCompletionsStreamWrites rid created model lm).getLast? = some doneSentinel
  ∧ (completionsStreamWrites rid created model prompt).dropLast
        = (completionsChunks rid created model prompt).map dataWrap
  ∧ ((completionsChunks rid created model prompt).dropLast).all chunkFinishIsNull = true
  ∧ chunkFinishIsStop (completionFinalChunk rid created model) = true
  ∧ (completionsChunks rid created model prompt).getLast? = some (completionFinalChunk rid created model)
  ∧ (completionsStreamWrites rid created model prompt).getLast? = some doneSentinel := by
  refine ⟨?_, ?_, rfl, ?_, ?_, ?_, ?_, rfl, ?_, ?_⟩
  · unfold chatCompletionsStreamWrites
    rw [List.dropLast_concat]
  · unfold chatCompletionsChunks
    rw [List.dropLast_concat, List.all_eq_true]
    intro c hc
    obtain ⟨s, _, rfl⟩ := List.mem_map.mp hc
    rfl
  · unfold chatCompletionsChunks
    rw [List.getLast?_concat]
  · unfold chatCompletionsStreamWrites
    rw [List.getLast?_concat]
  · unfold completionsStreamWrites
    rw [List.dropLast_concat]
  · unfold completionsChunks
    rw [List.dropLast_concat, List.all_eq_true]
    intro c hc
    obtain ⟨w, _, rfl⟩ := List.mem_map.mp hc
    rfl
  · unfold completionsChunks
    rw [List.getLast?_concat]
  · unfold completionsStreamWrites
    rw [List.getLast?_concat]

/-- C5: on both legacy streaming surfaces every write is the
serialization of exactly one JSON frame followed by one newline (no
blank lines, no prefix), exactly one frame carries done=true, and that
frame is the last one written. -/
theorem c5_line_delimited_framing (model createdAt prompt lm : PyStr) :
    genStreamWrites model createdAt prompt
        = (genStreamFrames model createdAt prompt).map (fun j => dumps j ++ ['\n'])
  ∧ (genStreamFrames model createdAt prompt).countP doneIsTrue = 1
  ∧ (genStreamFrames model createdAt prompt).getLast? = some (genFinalFrame model createdAt prompt)
  ∧ doneIsTrue (genFinalFrame model createdAt prompt) = true
  ∧ chatStreamWrites model createdAt lm
        = (chatStreamFrames model createdAt lm).map (fun j => dumps j ++ ['\n'])
  ∧ (chatStreamFrames model createdAt lm).countP doneIsTrue = 1
  ∧ (chatStreamFrames model createdAt lm).getLast? = some (chatFinalFrame model createdAt lm)
  ∧ doneIsTrue (chatFinalFrame model createdAt lm) = true := by
  refine ⟨rfl, ?_, ?_, rfl, rfl, ?_, ?_, rfl⟩
  · unfold genStreamFrames
    rw [List.countP_append]
    have h0 : ((pySplit prompt).map (genDeltaFrame model createdAt)).countP doneIsTrue = 0 := by
      rw [List.countP_eq_zero]
      intro j hj
      obtain ⟨w, _, rfl⟩ := List.mem_map.mp hj
      exact fun h => Bool.false_ne_true h
    rw [h0]
    rfl
  · unfold genStreamFrames
    rw [List.getLast?_concat]
  · unfold chatStreamFrames
    rw [List.countP_append]
    have h0 : ((chatStreamSentences (chatReplyText lm)).map (chatDeltaFrame model createdAt)).countP doneIsTrue = 0 := by
      rw [List.countP_eq_zero]
      intro j hj
      obtain ⟨s, _, rfl⟩ := List.mem_map.mp hj
      exact fun h => Bool.false_ne_true h
    rw [h0]
    rfl
  · unfold chatStreamFrames
    rw [List.getLast?_concat]

/-- C6: a streaming generate request with the empty prompt produces no
Delta frame, only the single terminal frame, whose response text is
empty and whose eval_count is 0. -/
theorem c6_empty_prompt_stream (model createdAt : PyStr) :
    genStreamFrames model createdAt (pystr "") = [genFinalFrame model createdAt (pystr "")]
  ∧ deltaResponseTexts (genStreamFrames model createdAt (pystr "")) = []
  ∧ strField (genFinalFrame model createdAt (pystr "")) "response" = some []
  ∧ numField (genFinalFrame model createdAt (pystr "")) "eval_count" = some 0
  ∧ doneIsTrue (genFinalFrame model createdAt (pystr "")) = true :=
  ⟨rfl, rfl, rfl, rfl, rfl⟩

/-- C7: both message-style handlers derive their reply from the
content of the last message whose role is user (empty when none), as
the spec-side definition specSourceText states, and the prompt-style
generate handler derives its reply from the prompt itself. -/
theorem c7_source_text_derivation (model createdAt rid : PyStr) (created : Int)
    (msgs : List Msg) (prompt : PyStr) :
    handle_chat createdAt (.ok ⟨model, msgs, false⟩)
        = .jsonRes ⟨200, chatNonStreamBody model createdAt (specSourceText msgs)⟩
  ∧ handle_chat_completions rid created (.ok ⟨model, msgs, false⟩)
        = .jsonRes ⟨200, chatCompletionsNonStreamBody rid created model (specSourceText msgs)⟩
  ∧ handle_generate createdAt (.ok ⟨model, prompt, false⟩)
        = .jsonRes ⟨200, genNonStreamBody model createdAt prompt⟩
  ∧ lastUserMessage msgs = specSourceText msgs := by
  have h := lastUser_eq_spec msgs
  refine ⟨?_, ?_, rfl, h⟩
  · show HandlerResult.jsonRes ⟨200, chatNonStreamBody model createdAt (lastUserMessage msgs)⟩
        = HandlerResult.jsonRes ⟨200, chatNonStreamBody model createdAt (specSourceText msgs)⟩
    rw [h]
  · show HandlerResult.jsonRes ⟨200, chatCompletionsNonStreamBody rid created model (lastUserMessage msgs)⟩
        = HandlerResult.jsonRes ⟨200, chatCompletionsNonStreamBody rid created model (specSourceText msgs)⟩
    rw [h]

/-- C8: retrieving a model id absent from the static registry yields
status 404 with a structured error whose code field is the stable
string model_not_found, and retrieving a registered id yields that
id's metadata with status 200. -/
theorem c8_model_retrieval (mid : PyStr) :
    (openaiModels.lookup mid = none →
      (handle_retrieve_model mid).status = 404
      ∧ ((handle_retrieve_model mid).body.getField "error").bind (fun e => strField e "code")
          = some (pystr "model_not_found"))
  ∧ (∀ meta, openaiModels.lookup mid = some meta →
      handle_retrieve_model mid = ⟨200, meta⟩) := by
  constructor
  · intro h
    unfold handle_retrieve_model
    rw [h]
    exact ⟨rfl, rfl⟩
  · intro meta h
    unfold handle_retrieve_model
    rw [h]

/-- C8 witness: the unregistered id gpt-5 is answered 404 with code
model_not_found, and the registered id gpt-4 is answered with its
metadata. -/
theorem c8_model_retrieval_witness :
    ((handle_retrieve_model (pystr "gpt-5")).status = 404
      ∧ ((handle_retrieve_model (pystr "gpt-5")).body.getField "error").bind (fun e => strField e "code")
          = some (pystr "model_not_found"))
  ∧ handle_retrieve_model (pystr "gpt-4")
      = ⟨200, modelEntry (pystr "gpt-4") 1687882411 (pystr "modelperm-789")⟩ :=
  ⟨(c8_model_retrieval (pystr "gpt-5")).1 rfl,
   (c8_model_retrieval (pystr "gpt-4")).2 _ rfl⟩

/-- C9: the non-streaming chat completion for the single user message
你好 embeds 你好 as a substring of the returned message content,
finishes with reason stop, and reports usage 1 + 50 = 51 with all
three token fields non-negative. -/
theorem c9_nihao_scenario (rid model : PyStr) (created : Int) :
    handle_chat_completions rid created (.ok ⟨model, [⟨pystr "user", pystr "你好"⟩], false⟩)
        = .jsonRes ⟨200, chatCompletionsNonStreamBody rid created model (pystr "你好")⟩
  ∧ (chatMsgContent (chatCompletionsNonStreamBody rid created model (pystr "你好"))).map
        (fun c => pyContains c (pystr "你好")) = some true
  ∧ chunkFinishIsStop (chatCompletionsNonStreamBody rid created model (pystr "你好")) = true
  ∧ usageNum (chatCompletionsNonStreamBody rid created model (pystr "你好")) "prompt_tokens" = some 1
  ∧ usageNum (chatCompletionsNonStreamBody rid created model (pystr "你好")) "completion_tokens" = some 50
  ∧ usageNum (chatCompletionsNonStreamBody rid created model (pystr "你好")) "total_tokens" = some 51
  ∧ (1 : Int) + 50 = 51 ∧ (0 : Int) ≤ 1 ∧ (0 : Int) ≤ 50 ∧ (0 : Int) ≤ 51 :=
  ⟨rfl, rfl, rfl, rfl, rfl, rfl, by decide, by decide, by decide, by decide⟩

/-- C10: an /api/embed request whose input field is a list reaches the
hash call before any isinstance branch, so the handler answers status
500 with the legacy error shape carrying the TypeError message, for
every list input; a string input is answered with status 200. -/
theorem c10_embed_list_unreachable (model s : PyStr) (xs : List PyStr) :
    handle_embed (.ok ⟨model, .list xs⟩)
        = ⟨500, .obj [(pystr "error", .str (pystr "unhashable type: 'list'"))]⟩
  ∧ (handle_embed (.ok ⟨model, .str s⟩)).status = 200 :=
  ⟨rfl, rfl⟩
